import Mathlib

/-!
Shallow embedding of `src/asgi/io.rs` (the granian ASGI I/O adapter):
the `Receiver` and `Sender` pyclasses, their helper methods
(`adapt_message_type`, `adapt_status_code`, `adapt_headers`, `adapt_body`,
`init_response`, `send_body`) and the `__call__` entry points.

Modelling conventions:
- Python byte strings are `List Nat` (each element a byte value).
- A `PyDict` message is an association list `String × PyValue`; `get_item`
  is list lookup, `extract` calls are explicit partial conversions.
- pyo3 `extract::<T>()?` failures inside methods returning
  `Result<_, UnsupportedASGIMessage>` become the `UnsupportedASGIMessage`
  error (forced by the return type of the Rust functions: every `PyErr`
  raised by an extraction is converted by `?` into the sole error type).
- Rust `.unwrap()` on an `Err`/invalid value and out-of-bounds slice
  indexing are modelled as an explicit `panic` outcome, carrying the
  state as mutated up to the panic point.
- `hyper::HeaderMap` is an association list of (lower-cased name, value)
  pairs; `HeaderMap::insert` replaces the value stored under an existing
  name (it never creates a duplicate entry), matching hyper's `insert`.
- The `oneshot` completion channel is a boolean `tx` flag (`true` =
  producer half still held, mirroring `Option<oneshot::Sender<_>>`), and
  a response "sent" through it is returned explicitly by the step
  function.
-/

namespace ASGI

/-- A byte string: list of byte values. -/
abbrev Bytes := List Nat

/-- Dynamic Python values crossing the pyo3 boundary, as used by the
messages the Sender inspects. -/
inductive PyValue where
  | pyStr (s : String)
  | pyInt (n : Int)
  | pyBytes (b : Bytes)
  | pyBool (b : Bool)
  | pyList (xs : List PyValue)

/-- A protocol message: an untyped key/value record (`PyDict`). -/
abbrev Message := List (String × PyValue)

/-- Embeds `PyDict::get_item`. -/
def get_item (m : Message) (k : String) : Option PyValue :=
  List.lookup k m

/-- pyo3 `extract::<&str>()`. -/
def extractStr : PyValue → Option String
  | .pyStr s => some s
  | _ => none

/-- pyo3 `extract::<i16>()`: succeeds on integers fitting in `i16`. -/
def extractI16 : PyValue → Option Int
  | .pyInt n => if -32768 ≤ n ∧ n ≤ 32767 then some n else none
  | _ => none

/-- pyo3 `extract::<Vec<u8>>()` from a bytes object. -/
def extractBytes : PyValue → Option Bytes
  | .pyBytes b => some b
  | _ => none

/-- pyo3 `extract::<bool>()`. -/
def extractBool : PyValue → Option Bool
  | .pyBool b => some b
  | _ => none

/-- pyo3 `extract::<Vec<&[u8]>>()`: all-or-nothing extraction of a list of
byte strings. -/
def extractBytesList : List PyValue → Option (List Bytes)
  | [] => some []
  | x :: xs =>
    match extractBytes x, extractBytesList xs with
    | some b, some bs => some (b :: bs)
    | _, _ => none

/-- Inner step of `extract::<Vec<Vec<&[u8]>>>()`: each element must itself
be a list of byte strings. -/
def extractPairList : List PyValue → Option (List (List Bytes))
  | [] => some []
  | x :: xs =>
    match (match x with | .pyList ys => extractBytesList ys | _ => none),
          extractPairList xs with
    | some p, some ps => some (p :: ps)
    | _, _ => none

/-- pyo3 `extract::<Vec<Vec<&[u8]>>>()`: a list of lists of byte strings. -/
def extractHeadersList : PyValue → Option (List (List Bytes))
  | .pyList xs => extractPairList xs
  | _ => none

/-- Embeds `super::types::ASGIMessageType` (the variants `io.rs` uses). -/
inductive ASGIMessageType where
  | Start
  | Body
deriving DecidableEq

/-- Embeds `hyper::HeaderMap`: association list of (name, value) byte strings;
names are stored lower-cased (hyper normalizes header names). -/
abbrev HeaderMap := List (Bytes × Bytes)

/-- ASCII lower-casing of one byte, as hyper does for header names. -/
def lowerByte (b : Nat) : Nat :=
  if 65 ≤ b ∧ b ≤ 90 then b + 32 else b

/-- Valid header-name byte (after lower-casing): lower-case letter, digit,
or one of the token characters hyper's `HeaderName` accepts. -/
def isNameByte (b : Nat) : Bool :=
  (97 ≤ b && b ≤ 122) || (48 ≤ b && b ≤ 57) ||
  [33, 35, 36, 37, 38, 39, 42, 43, 45, 46, 94, 95, 96, 124, 126].contains b

/-- Embeds `hyper::header::HeaderName::from_bytes`: nonempty, every byte a valid
token byte (upper-case letters accepted and lower-cased). -/
def headerNameFromBytes (bs : Bytes) : Option Bytes :=
  if bs ≠ [] ∧ bs.all (fun b => isNameByte (lowerByte b)) then
    some (bs.map lowerByte)
  else none

/-- Embeds `hyper::header::HeaderValue::from_bytes`: every byte is visible ASCII,
obs-text (≥ 128), space, or horizontal tab. -/
def headerValueFromBytes (bs : Bytes) : Option Bytes :=
  if bs.all (fun b => (32 ≤ b && b ≠ 127) || b = 9) then some bs else none

/-- Embeds `HeaderMap::insert`: replace the value under an existing name,
otherwise append the new entry. -/
def headerInsert (m : HeaderMap) (k v : Bytes) : HeaderMap :=
  if m.any (fun p => p.1 = k) then
    m.map (fun p => if p.1 = k then (p.1, v) else p)
  else m ++ [(k, v)]

/-- The `Sender` pyclass state. `tx = true` models
`Some(oneshot::Sender<_>)`, `tx = false` models `None`. -/
structure SenderState where
  inited : Bool
  consumed : Bool
  status : Int
  headers : HeaderMap
  body : Bytes
  tx : Bool
deriving DecidableEq

/-- Embeds `Sender::new`. -/
def Sender.new (tx : Bool) : SenderState :=
  { inited := false, consumed := false, status := 0,
    headers := [], body := [], tx := tx }

/-- The HTTP response resolved through the completion channel. -/
structure HttpResponse where
  status : Nat
  headers : HeaderMap
  body : Bytes
deriving DecidableEq

/-- Outcome of a `Sender::__call__` invocation as seen by the handler:
`ok` (`Ok(())`), `flowError` (`Err(ASGIFlowError)`), `unsupported`
(`Err(UnsupportedASGIMessage)`), or `panic` (a Rust `unwrap`/index panic). -/
inductive Outcome where
  | ok
  | flowError
  | unsupported
  | panic
deriving DecidableEq

/-- Embeds `Sender::adapt_message_type`. `none` is `Err(UnsupportedASGIMessage)`
(either directly, or the extraction `PyErr` converted by `?`). -/
def adapt_message_type (m : Message) : Option ASGIMessageType :=
  match get_item m "type" with
  | some item =>
    match extractStr item with
    | some s =>
      if s = "http.response.start" then some .Start
      else if s = "http.response.body" then some .Body
      else none
    | none => none
  | none => none

/-- Embeds `Sender::adapt_status_code`. `none` is `Err(UnsupportedASGIMessage)`. -/
def adapt_status_code (m : Message) : Option Int :=
  match get_item m "status" with
  | some item => extractI16 item
  | none => none

/-- One header pair in the `adapt_headers` loop: `tup[0]` / `tup[1]`
indexing, then `HeaderName::from_bytes` / `HeaderValue::from_bytes`.
`none` means the pair is skipped; an out-of-bounds index is a panic and
is handled by the caller. -/
def parseHeaderPair (tup : List Bytes) : Option (Bytes × Bytes) :=
  match tup.get? 0, tup.get? 1 with
  | some k, some v =>
    match headerNameFromBytes k, headerValueFromBytes v with
    | some key, some val => some (key, val)
    | _, _ => none
  | _, _ => none

/-- The `for tup in accum.iter()` loop of `Sender::adapt_headers`.
Returns `none` when `tup[0]` or `tup[1]` is out of bounds (Rust panics). -/
def adaptHeadersLoop : List (List Bytes) → HeaderMap → Option HeaderMap
  | [], ret => some ret
  | tup :: rest, ret =>
    match tup.get? 0, tup.get? 1 with
    | some k, some v =>
      match headerNameFromBytes k, headerValueFromBytes v with
      | some key, some val => adaptHeadersLoop rest (headerInsert ret key val)
      | _, _ => adaptHeadersLoop rest ret
    | _, _ => none

/-- Embeds `Sender::adapt_headers`. Missing `headers` key, or a failed
`extract::<Vec<Vec<&[u8]>>>` (`unwrap_or(Vec::new())`), yields the empty
map; `none` is the out-of-bounds panic inside the loop. -/
def adapt_headers (m : Message) : Option HeaderMap :=
  match get_item m "headers" with
  | some item => adaptHeadersLoop ((extractHeadersList item).getD []) []
  | none => some []

/-- Embeds `Sender::adapt_body`: body defaults to empty bytes, `more_body`
defaults to `false`, both on absence or failed extraction. -/
def adapt_body (m : Message) : Bytes × Bool :=
  let body :=
    match get_item m "body" with
    | some item => (extractBytes item).getD []
    | none => []
  let more :=
    match get_item m "more_body" with
    | some item => (extractBool item).getD false
    | none => false
  (body, more)

/-- Embeds `Sender::init_response`. -/
def init_response (s : SenderState) (status_code : Int) (headers : HeaderMap) :
    SenderState :=
  { s with status := status_code, headers := headers, inited := true }

/-- Embeds `self.status as u16`: two's-complement reinterpretation of the `i16`. -/
def statusAsU16 (status : Int) : Nat :=
  (status % 65536).toNat

/-- Embeds `hyper::StatusCode::from_u16`: valid exactly on `100..=999`. -/
def statusCodeFromU16 (n : Nat) : Option Nat :=
  if 100 ≤ n ∧ n ≤ 999 then some n else none

/-- Result of one step: the call outcome, the Sender state afterwards
(at the panic point if the call panicked), and the response resolved
through the completion channel by this call, if any. -/
structure StepResult where
  outcome : Outcome
  state : SenderState
  sent : Option HttpResponse
deriving DecidableEq

/-- Embeds `Sender::send_body`: append the chunk; on `finish`, take the channel
if still held, build the response (`StatusCode::from_u16(..).unwrap()` —
a panic when the stored status is out of range), send it, and mark the
sender consumed. -/
def send_body (s : SenderState) (body : Bytes) (finish : Bool) : StepResult :=
  let s1 := { s with body := s.body ++ body }
  if finish then
    if s1.tx then
      let s2 := { s1 with tx := false }
      match statusCodeFromU16 (statusAsU16 s2.status) with
      | some code =>
        { outcome := .ok, state := { s2 with consumed := true },
          sent := some { status := code, headers := s2.headers, body := s2.body } }
      | none => { outcome := .panic, state := s2, sent := none }
    else
      { outcome := .ok, state := { s1 with consumed := true }, sent := none }
  else
    { outcome := .ok, state := s1, sent := none }

/-- Embeds `Sender::__call__`: classify the message, then dispatch on the state
machine. Rust evaluates `self.adapt_status_code(data).unwrap()` before
`self.adapt_headers(data)`, so a missing/mistyped status panics first. -/
def senderCall (s : SenderState) (m : Message) : StepResult :=
  match adapt_message_type m with
  | some .Start =>
    if s.inited then
      { outcome := .flowError, state := s, sent := none }
    else
      match adapt_status_code m with
      | some status =>
        match adapt_headers m with
        | some headers =>
          { outcome := .ok, state := init_response s status headers, sent := none }
        | none => { outcome := .panic, state := s, sent := none }
      | none => { outcome := .panic, state := s, sent := none }
  | some .Body =>
    if s.inited ∧ ¬ s.consumed then
      let bd := adapt_body m
      send_body s bd.1 (!bd.2)
    else
      { outcome := .flowError, state := s, sent := none }
  | none => { outcome := .unsupported, state := s, sent := none }

/-- Run a sequence of `submit` calls, collecting every response resolved
through the completion channel. -/
def runSender : SenderState → List Message → SenderState × List HttpResponse
  | s, [] => (s, [])
  | s, m :: rest =>
    let r := senderCall s m
    let (s', sents) := runSender r.state rest
    (s', r.sent.toList ++ sents)

/-- The underlying request body stream as the Receiver sees it:
either the remaining bytes, or a transport failure
(`hyper::body::to_bytes` returning `Err`). -/
inductive BodyStream where
  | avail (b : Bytes)
  | transportError
deriving DecidableEq

/-- Embeds `hyper::body::to_bytes` on the shared request. -/
def to_bytes : BodyStream → Except Unit Bytes
  | .avail b => .ok b
  | .transportError => .error ()

/-- What a `Receiver::__call__` await resolves to for the handler. -/
inductive ReceiveResult where
  | bytes (b : Bytes)
  | panic
deriving DecidableEq

/-- Embeds `Receiver::__call__`: `hyper::body::to_bytes(&mut *req).await.unwrap()`
— the `Err` branch of `to_bytes` is unwrapped, i.e. a panic, not a
returned transport-read error. -/
def receiverCall (s : BodyStream) : ReceiveResult :=
  match to_bytes s with
  | .ok b => .bytes b
  | .error _ => .panic

/-- Message builder: `{type: "http.response.start", status, headers}`
with headers given as a list of byte-string lists. -/
def startMsg (status : Int) (headers : List (List Bytes)) : Message :=
  [("type", .pyStr "http.response.start"),
   ("status", .pyInt status),
   ("headers", .pyList (headers.map (fun p => .pyList (p.map PyValue.pyBytes))))]

/-- Message builder: `{type: "http.response.body", body, more_body}`. -/
def bodyMsg (b : Bytes) (more : Bool) : Message :=
  [("type", .pyStr "http.response.body"),
   ("body", .pyBytes b),
   ("more_body", .pyBool more)]

/-- A concrete Sender in the `Initialized` state (status 200, no headers,
empty body, channel still held), used to instantiate theorems. -/
def stInit : SenderState :=
  { inited := true, consumed := false, status := 200,
    headers := [], body := [], tx := true }

/- ### Basic reduction lemmas -/

lemma adapt_message_type_startMsg (S : Int) (H : List (List Bytes)) :
    adapt_message_type (startMsg S H) = some ASGIMessageType.Start := rfl

lemma adapt_message_type_bodyMsg (b : Bytes) (more : Bool) :
    adapt_message_type (bodyMsg b more) = some ASGIMessageType.Body := rfl

lemma adapt_body_bodyMsg (b : Bytes) (more : Bool) :
    adapt_body (bodyMsg b more) = (b, more) := rfl

lemma adapt_status_code_startMsg (S : Int) (H : List (List Bytes))
    (h1 : -32768 ≤ S) (h2 : S ≤ 32767) :
    adapt_status_code (startMsg S H) = some S := by
  have hgs : adapt_status_code (startMsg S H) = extractI16 (.pyInt S) := rfl
  rw [hgs]
  simp [extractI16, h1, h2]

lemma extractBytesList_map (p : List Bytes) :
    extractBytesList (p.map PyValue.pyBytes) = some p := by
  induction p with
  | nil => rfl
  | cons b bs ih => simp [extractBytesList, extractBytes, ih]

lemma extractPairList_map (H : List (List Bytes)) :
    extractPairList (H.map (fun p => PyValue.pyList (p.map PyValue.pyBytes))) =
      some H := by
  induction H with
  | nil => rfl
  | cons p ps ih => simp [extractPairList, extractBytesList_map, ih]

lemma adapt_headers_startMsg (S : Int) (H : List (List Bytes)) :
    adapt_headers (startMsg S H) = adaptHeadersLoop H [] := by
  have hgs : adapt_headers (startMsg S H) =
      adaptHeadersLoop
        ((extractPairList (H.map (fun p => PyValue.pyList (p.map PyValue.pyBytes)))).getD [])
        [] := rfl
  rw [hgs, extractPairList_map]
  rfl

/- ### Single-call characterizations -/

lemma senderCall_start_fresh (s : SenderState) (S : Int) (H : List (List Bytes))
    (hm : HeaderMap) (hfresh : s.inited = false)
    (h1 : -32768 ≤ S) (h2 : S ≤ 32767)
    (hH : adaptHeadersLoop H [] = some hm) :
    senderCall s (startMsg S H) =
      { outcome := .ok,
        state := { s with status := S, headers := hm, inited := true },
        sent := none } := by
  simp [senderCall, adapt_message_type_startMsg, hfresh,
        adapt_status_code_startMsg S H h1 h2, adapt_headers_startMsg, hH,
        init_response]

lemma senderCall_body_more (st : SenderState) (b : Bytes)
    (hi : st.inited = true) (hc : st.consumed = false) :
    senderCall st (bodyMsg b true) =
      { outcome := .ok, state := { st with body := st.body ++ b },
        sent := none } := by
  simp [senderCall, adapt_message_type_bodyMsg, adapt_body_bodyMsg,
        hi, hc, send_body]

lemma senderCall_body_final (st : SenderState) (b : Bytes)
    (hi : st.inited = true) (hc : st.consumed = false) (htx : st.tx = true)
    (h1 : 100 ≤ statusAsU16 st.status) (h2 : statusAsU16 st.status ≤ 999) :
    senderCall st (bodyMsg b false) =
      { outcome := .ok,
        state := { st with body := st.body ++ b, tx := false, consumed := true },
        sent := some { status := statusAsU16 st.status, headers := st.headers,
                       body := st.body ++ b } } := by
  simp [senderCall, adapt_message_type_bodyMsg, adapt_body_bodyMsg,
        hi, hc, send_body, htx, statusCodeFromU16, h1, h2]

/- ### Finalized (dead) states -/

lemma senderCall_dead_state (s : SenderState) (m : Message)
    (hi : s.inited = true) (hc : s.consumed = true) :
    (senderCall s m).state = s ∧ (senderCall s m).sent = none := by
  unfold senderCall
  cases hmt : adapt_message_type m with
  | none => simp
  | some t => cases t <;> simp [hi, hc]

lemma senderCall_dead_flow (s : SenderState) (m : Message) (t : ASGIMessageType)
    (hi : s.inited = true) (hc : s.consumed = true)
    (hty : adapt_message_type m = some t) :
    senderCall s m = { outcome := .flowError, state := s, sent := none } := by
  unfold senderCall
  rw [hty]
  cases t <;> simp [hi, hc]

lemma runSender_dead (s : SenderState)
    (hi : s.inited = true) (hc : s.consumed = true) :
    ∀ ms : List Message, (runSender s ms).2 = [] := by
  intro ms
  induction ms with
  | nil => rfl
  | cons m rest ih =>
    have h := senderCall_dead_state s m hi hc
    simp [runSender, h.1, h.2, ih]

lemma send_body_finish_ok (s : SenderState) (b : Bytes)
    (hok : (send_body s b true).outcome = Outcome.ok) :
    (send_body s b true).state.consumed = true ∧
    (send_body s b true).state.tx = false ∧
    (send_body s b true).state.inited = s.inited := by
  unfold send_body at hok ⊢
  by_cases htx : s.tx = true
  · cases hsc : statusCodeFromU16 (statusAsU16 s.status) with
    | none => simp [htx, hsc] at hok
    | some code => simp [htx, hsc]
  · have htx' : s.tx = false := by
      cases h : s.tx
      · rfl
      · exact absurd h htx
    simp [htx']

/- ### Body-chunk accumulation -/

lemma runSender_body_chunks (bs : List Bytes) :
    ∀ (st : SenderState) (bn : Bytes),
    st.inited = true → st.consumed = false → st.tx = true →
    100 ≤ statusAsU16 st.status → statusAsU16 st.status ≤ 999 →
    (runSender st (bs.map (fun b => bodyMsg b true) ++ [bodyMsg bn false])).2 =
      [{ status := statusAsU16 st.status, headers := st.headers,
         body := st.body ++ bs.flatten ++ bn }] := by
  induction bs with
  | nil =>
    intro st bn hi hc htx h1 h2
    simp [runSender, senderCall_body_final st bn hi hc htx h1 h2]
  | cons b rest ih =>
    intro st bn hi hc htx h1 h2
    have hstep := senderCall_body_more st b hi hc
    have hnext := ih { st with body := st.body ++ b } bn hi hc htx h1 h2
    simp [runSender, hstep] at hnext ⊢
    rw [hnext]

/- ### The header loop as a fold over successfully parsed pairs -/

lemma adaptHeadersLoop_eq_foldl (H : List (List Bytes)) :
    ∀ acc : HeaderMap, (∀ p ∈ H, 2 ≤ p.length) →
    adaptHeadersLoop H acc =
      some ((H.filterMap parseHeaderPair).foldl
        (fun a kv => headerInsert a kv.1 kv.2) acc) := by
  induction H with
  | nil => intro acc _; rfl
  | cons tup rest ih =>
    intro acc hlen
    have hrest : ∀ p ∈ rest, 2 ≤ p.length := fun p hp =>
      hlen p (List.mem_cons_of_mem _ hp)
    rcases tup with _ | ⟨a, tl⟩
    · exact absurd (hlen [] (by simp)) (by simp)
    rcases tl with _ | ⟨b, t⟩
    · exact absurd (hlen [a] (by simp)) (by simp)
    rcases hk : headerNameFromBytes a with _ | key <;>
      rcases hv : headerValueFromBytes b with _ | val <;>
      simp [adaptHeadersLoop, List.filterMap_cons, parseHeaderPair, hk, hv,
            ih _ hrest]

/- ### Claims -/

/-- C1: `Sender.submit` enforces the strict `Fresh → Initialized →
Finalized` ordering: (1) a `start` message submitted in any state other
than `Fresh` (i.e. with `inited` already set) fails with `FlowError` and
changes nothing; (2) a `body` message submitted in any state other than
exactly `Initialized` (i.e. `Fresh` or already `Finalized`) fails with
`FlowError`, changes nothing and produces no response; (3) a valid
`start` submitted in `Fresh` succeeds and moves the state to
`Initialized`. -/
theorem C1_sender_message_ordering :
    (∀ (s : SenderState) (m : Message),
      adapt_message_type m = some ASGIMessageType.Start → s.inited = true →
      senderCall s m = { outcome := .flowError, state := s, sent := none }) ∧
    (∀ (s : SenderState) (m : Message),
      adapt_message_type m = some ASGIMessageType.Body →
      ¬ (s.inited = true ∧ s.consumed = false) →
      senderCall s m = { outcome := .flowError, state := s, sent := none }) ∧
    (∀ (s : SenderState) (S : Int) (H : List (List Bytes)) (hm : HeaderMap),
      s.inited = false → s.consumed = false →
      -32768 ≤ S → S ≤ 32767 → adaptHeadersLoop H [] = some hm →
      (senderCall s (startMsg S H)).outcome = Outcome.ok ∧
      (senderCall s (startMsg S H)).state.inited = true ∧
      (senderCall s (startMsg S H)).state.consumed = false) := by
  refine ⟨?_, ?_, ?_⟩
  · intro s m hty hi
    simp [senderCall, hty, hi]
  · intro s m hty hn
    have hcond : ¬ (s.inited = true ∧ ¬ s.consumed = true) := by
      intro ⟨ha, hb⟩
      exact hn ⟨ha, by cases h : s.consumed
                       · rfl
                       · exact absurd h hb⟩
    simp only [senderCall, hty]
    rw [if_neg hcond]
  · intro s S H hm hfresh hcons h1 h2 hH
    rw [senderCall_start_fresh s S H hm hfresh h1 h2 hH]
    exact ⟨rfl, rfl, hcons⟩

/-- Closed instance of C1: a second `start` on an initialized sender and
a first `body` on a fresh sender both fail with `FlowError`; a valid
`start` on a fresh sender succeeds and initializes it. -/
theorem C1_sender_message_ordering_witness :
    (senderCall stInit (startMsg 204 []) =
      { outcome := .flowError, state := stInit, sent := none }) ∧
    (senderCall (Sender.new true) (bodyMsg [104] false) =
      { outcome := .flowError, state := Sender.new true, sent := none }) ∧
    ((senderCall (Sender.new true) (startMsg 200 [])).outcome = Outcome.ok ∧
     (senderCall (Sender.new true) (startMsg 200 [])).state.inited = true ∧
     (senderCall (Sender.new true) (startMsg 200 [])).state.consumed = false) :=
  ⟨C1_sender_message_ordering.1 stInit (startMsg 204 []) rfl rfl,
   C1_sender_message_ordering.2.1 (Sender.new true) (bodyMsg [104] false) rfl
     (by decide),
   C1_sender_message_ordering.2.2 (Sender.new true) 200 [] [] rfl rfl
     (by decide) (by decide) rfl⟩

/-- C2: after a finalizing `body` message (`more_body = false`) is
accepted, the sender is consumed and the completion channel is gone;
every later `submit` of a recognized message fails with `FlowError`,
leaves the state unchanged and sends nothing, and no sequence of later
calls ever resolves the channel again. -/
theorem C2_completion_resolved_once (s : SenderState) (m : Message)
    (hty : adapt_message_type m = some ASGIMessageType.Body)
    (hmore : (adapt_body m).2 = false)
    (hok : (senderCall s m).outcome = Outcome.ok) :
    (senderCall s m).state.consumed = true ∧
    (senderCall s m).state.tx = false ∧
    (∀ (m' : Message) (t : ASGIMessageType), adapt_message_type m' = some t →
      senderCall (senderCall s m).state m' =
        { outcome := .flowError, state := (senderCall s m).state,
          sent := none }) ∧
    ∀ ms : List Message, (runSender (senderCall s m).state ms).2 = [] := by
  have hcond : s.inited = true ∧ ¬ s.consumed = true := by
    by_contra hn
    simp only [senderCall, hty] at hok
    rw [if_neg hn] at hok
    simp at hok
  have hcall : senderCall s m = send_body s (adapt_body m).1 true := by
    simp [senderCall, hty, hcond.1, hcond.2, hmore]
  rw [hcall] at hok ⊢
  obtain ⟨hc', htx', hi'⟩ := send_body_finish_ok s (adapt_body m).1 hok
  have hi'' : (send_body s (adapt_body m).1 true).state.inited = true :=
    hi'.trans hcond.1
  exact ⟨hc', htx',
    fun m' t hty' => senderCall_dead_flow _ m' t hi'' hc' hty',
    runSender_dead _ hi'' hc'⟩

/-- Closed instance of C2: a finalizing `body` on an initialized sender
consumes the channel; a later `start` fails with `FlowError` and a later
run of further `body` calls resolves nothing. -/
theorem C2_completion_resolved_once_witness :
    (senderCall stInit (bodyMsg [104] false)).state.consumed = true ∧
    (senderCall stInit (bodyMsg [104] false)).state.tx = false ∧
    senderCall (senderCall stInit (bodyMsg [104] false)).state
        (startMsg 200 []) =
      { outcome := .flowError,
        state := (senderCall stInit (bodyMsg [104] false)).state,
        sent := none } ∧
    (runSender (senderCall stInit (bodyMsg [104] false)).state
        [bodyMsg [105] false, bodyMsg [106] true]).2 = [] :=
  ⟨(C2_completion_resolved_once stInit (bodyMsg [104] false) rfl rfl
      (by decide)).1,
   (C2_completion_resolved_once stInit (bodyMsg [104] false) rfl rfl
      (by decide)).2.1,
   (C2_completion_resolved_once stInit (bodyMsg [104] false) rfl rfl
      (by decide)).2.2.1 (startMsg 200 []) ASGIMessageType.Start rfl,
   (C2_completion_resolved_once stInit (bodyMsg [104] false) rfl rfl
      (by decide)).2.2.2 [bodyMsg [105] false, bodyMsg [106] true]⟩

/-- C3: an accepted `start` with status `S` and headers `H`, followed by
`body` chunks `b1 .. b(n-1)` with `more_body = true` and a final chunk
`bn` with `more_body = false`, resolves the completion channel with
exactly one response whose status is `S`, whose headers are the ones
adopted from `H`, and whose body is the concatenation of all chunks in
submission order. (`100 ≤ S ≤ 999` is the range in which the finalizing
status conversion is defined; see C9.) -/
theorem C3_response_is_concatenation (S : Int) (H : List (List Bytes))
    (hm : HeaderMap) (bs : List Bytes) (bn : Bytes)
    (h1 : 100 ≤ S) (h2 : S ≤ 999)
    (hH : adaptHeadersLoop H [] = some hm) :
    (runSender (Sender.new true)
        (startMsg S H ::
          (bs.map (fun b => bodyMsg b true) ++ [bodyMsg bn false]))).2 =
      [{ status := S.toNat, headers := hm, body := bs.flatten ++ bn }] := by
  have hsu : statusAsU16 S = S.toNat := by
    unfold statusAsU16
    rw [Int.emod_eq_of_lt (by omega) (by omega)]
  have hstart := senderCall_start_fresh (Sender.new true) S H hm rfl
    (by omega) (by omega) hH
  have hstate :
      ({ Sender.new true with
          status := S, headers := hm, inited := true } : SenderState) =
        { inited := true, consumed := false, status := S, headers := hm,
          body := [], tx := true } := rfl
  rw [hstate] at hstart
  have hrun := runSender_body_chunks bs
    { inited := true, consumed := false, status := S, headers := hm,
      body := [], tx := true } bn
    rfl rfl rfl (by simp only [hsu]; omega) (by simp only [hsu]; omega)
  simp [runSender, hstart]
  rw [hrun]
  simp [hsu]

/-- Closed instance of C3: the spec scenario — `start` with status 200
and header `content-type: text/plain`, then body `hello` with more to
come, then body `world` — yields one response with status 200, that
header, and body `helloworld`. -/
theorem C3_response_is_concatenation_witness :
    (runSender (Sender.new true)
        (startMsg 200
            [[[99, 111, 110, 116, 101, 110, 116, 45, 116, 121, 112, 101],
              [116, 101, 120, 116, 47, 112, 108, 97, 105, 110]]] ::
          ([[104, 101, 108, 108, 111]].map (fun b => bodyMsg b true) ++
            [bodyMsg [119, 111, 114, 108, 100] false]))).2 =
      [{ status := 200,
         headers := [([99, 111, 110, 116, 101, 110, 116, 45, 116, 121, 112,
                       101],
                      [116, 101, 120, 116, 47, 112, 108, 97, 105, 110])],
         body := [104, 101, 108, 108, 111, 119, 111, 114, 108, 100] }] :=
  C3_response_is_concatenation 200
    [[[99, 111, 110, 116, 101, 110, 116, 45, 116, 121, 112, 101],
      [116, 101, 120, 116, 47, 112, 108, 97, 105, 110]]]
    [([99, 111, 110, 116, 101, 110, 116, 45, 116, 121, 112, 101],
      [116, 101, 120, 116, 47, 112, 108, 97, 105, 110])]
    [[104, 101, 108, 108, 111]] [119, 111, 114, 108, 100]
    (by decide) (by decide) (by decide)

/-- C4: contrary to the claim, a `start` message in `Fresh` whose
`status` field is absent or not an integer does not surface
`UnsupportedMessage` as a returned error: `Sender::__call__` calls
`self.adapt_status_code(data).unwrap()`, so the `Err(UnsupportedASGIMessage)`
produced by `adapt_status_code` is unwrapped and the call panics. -/
theorem C4_missing_status_panics_instead_of_unsupported :
    adapt_status_code [("type", PyValue.pyStr "http.response.start")] =
      none ∧
    senderCall (Sender.new true)
        [("type", PyValue.pyStr "http.response.start")] =
      { outcome := .panic, state := Sender.new true, sent := none } ∧
    adapt_status_code
        [("type", PyValue.pyStr "http.response.start"),
         ("status", PyValue.pyStr "200")] = none ∧
    senderCall (Sender.new true)
        [("type", PyValue.pyStr "http.response.start"),
         ("status", PyValue.pyStr "200")] =
      { outcome := .panic, state := Sender.new true, sent := none } :=
  ⟨rfl, rfl, rfl, rfl⟩

/-- C5: contrary to the claim, a failing body stream does not propagate a
transport-read error as a returned failure: `Receiver::__call__` calls
`hyper::body::to_bytes(..).await.unwrap()`, so the `Err` is unwrapped
and the task panics (there is no error-return path at all). -/
theorem C5_transport_failure_panics_instead_of_error :
    to_bytes BodyStream.transportError = Except.error () ∧
    receiverCall BodyStream.transportError = ReceiveResult.panic ∧
    receiverCall (BodyStream.avail [97, 98, 99]) =
      ReceiveResult.bytes [97, 98, 99] :=
  ⟨rfl, rfl, rfl⟩

/-- C6 counterexample: two well-formed pairs with the same name `a`
(values `1` and `2`, i.e. bytes `[49]` and `[50]`) are NOT both
retained: the adopted headers contain only the last pair, the value
`[49]` is gone, and the final response carries a single `a: 2` header. -/
theorem C6_duplicate_headers_counterexample :
    (senderCall (Sender.new true)
        (startMsg 200 [[[97], [49]], [[97], [50]]])).state.headers =
      [([97], [50])] ∧
    ([97], [49]) ∉
      (senderCall (Sender.new true)
        (startMsg 200 [[[97], [49]], [[97], [50]]])).state.headers ∧
    (runSender (Sender.new true)
        [startMsg 200 [[[97], [49]], [[97], [50]]], bodyMsg [] false]).2 =
      [{ status := 200, headers := [([97], [50])], body := [] }] := by
  refine ⟨rfl, ?_, rfl⟩
  decide

/-- C6 as amended: when two well-formed header pairs share a name, only
the last pair's value is retained — `HeaderMap::insert` replaces the
value stored under an existing name, so the final response carries only
the most recently submitted value for a duplicated name. -/
theorem C6_duplicate_header_last_value_wins (S : Int) (k v1 v2 key : Bytes)
    (hk : headerNameFromBytes k = some key)
    (h1 : headerValueFromBytes v1 = some v1)
    (h2 : headerValueFromBytes v2 = some v2) :
    adapt_headers (startMsg S [[k, v1], [k, v2]]) = some [(key, v2)] := by
  rw [adapt_headers_startMsg]
  simp [adaptHeadersLoop, hk, h1, h2, headerInsert]

/-- Closed instance of the amended C6 at name `a`, values `1` then `2`. -/
theorem C6_duplicate_header_last_value_wins_witness :
    adapt_headers (startMsg 200 [[[97], [49]], [[97], [50]]]) =
      some [([97], [50])] :=
  C6_duplicate_header_last_value_wins 200 [97] [49] [50] [97]
    (by decide) (by decide) (by decide)

/-- C7: a message whose `type` field is absent, not a string, or a string
other than `http.response.start` / `http.response.body` fails with
`UnsupportedMessage` and leaves the whole sender state (all six fields,
completion channel included) unchanged, sending nothing. -/
theorem C7_unrecognized_type_rejected_unchanged (s : SenderState)
    (m : Message)
    (h : get_item m "type" = none ∨
      ∃ v, get_item m "type" = some v ∧
        (extractStr v = none ∨
         ∃ t, extractStr v = some t ∧ t ≠ "http.response.start" ∧
           t ≠ "http.response.body")) :
    senderCall s m = { outcome := .unsupported, state := s, sent := none } := by
  have hmt : adapt_message_type m = none := by
    rcases h with h | ⟨v, hv, h⟩
    · simp [adapt_message_type, h]
    · rcases h with h | ⟨t, ht, ht1, ht2⟩
      · simp [adapt_message_type, hv, h]
      · simp [adapt_message_type, hv, ht, ht1, ht2]
  simp [senderCall, hmt]

/-- Closed instances of C7: a message with an unrecognized string type,
one with a non-string type, and one with no type at all are each
rejected with `UnsupportedMessage` and leave the sender untouched. -/
theorem C7_unrecognized_type_rejected_unchanged_witness :
    senderCall stInit [("type", PyValue.pyStr "websocket.send")] =
      { outcome := .unsupported, state := stInit, sent := none } ∧
    senderCall stInit [("type", PyValue.pyInt 5)] =
      { outcome := .unsupported, state := stInit, sent := none } ∧
    senderCall stInit [("body", PyValue.pyBytes [104])] =
      { outcome := .unsupported, state := stInit, sent := none } :=
  ⟨C7_unrecognized_type_rejected_unchanged stInit _
      (Or.inr ⟨PyValue.pyStr "websocket.send", rfl,
        Or.inr ⟨"websocket.send", rfl, by decide, by decide⟩⟩),
   C7_unrecognized_type_rejected_unchanged stInit _
      (Or.inr ⟨PyValue.pyInt 5, rfl, Or.inl rfl⟩),
   C7_unrecognized_type_rejected_unchanged stInit _ (Or.inl rfl)⟩

/-- C8: for a `start` accepted in `Fresh` whose header pairs all have at
least two components, the pairs that fail `HeaderName`/`HeaderValue`
parsing are silently dropped, the remaining valid pairs are adopted (in
order, via `HeaderMap::insert`), and the message still succeeds. -/
theorem C8_malformed_header_pairs_dropped (s : SenderState) (S : Int)
    (H : List (List Bytes))
    (hfresh : s.inited = false)
    (h1 : -32768 ≤ S) (h2 : S ≤ 32767)
    (hlen : ∀ p ∈ H, 2 ≤ p.length) :
    (senderCall s (startMsg S H)).outcome = Outcome.ok ∧
    (senderCall s (startMsg S H)).state.headers =
      (H.filterMap parseHeaderPair).foldl
        (fun a kv => headerInsert a kv.1 kv.2) [] := by
  have hH := adaptHeadersLoop_eq_foldl H [] hlen
  rw [senderCall_start_fresh s S H _ hfresh h1 h2 hH]
  exact ⟨rfl, rfl⟩

/-- Closed instance of C8: the spec example — headers
`[[b"ok", b"v1"], [b"\x00bad", b"v2"]]` — succeeds and adopts only
`ok: v1`; the `\x00bad` pair is dropped. -/
theorem C8_malformed_header_pairs_dropped_witness :
    (senderCall (Sender.new true)
        (startMsg 200 [[[111, 107], [118, 49]],
                       [[0, 98, 97, 100], [118, 50]]])).outcome =
      Outcome.ok ∧
    (senderCall (Sender.new true)
        (startMsg 200 [[[111, 107], [118, 49]],
                       [[0, 98, 97, 100], [118, 50]]])).state.headers =
      [([111, 107], [118, 49])] :=
  ⟨(C8_malformed_header_pairs_dropped (Sender.new true) 200
      [[[111, 107], [118, 49]], [[0, 98, 97, 100], [118, 50]]]
      rfl (by decide) (by decide) (by decide)).1,
   ((C8_malformed_header_pairs_dropped (Sender.new true) 200
      [[[111, 107], [118, 49]], [[0, 98, 97, 100], [118, 50]]]
      rfl (by decide) (by decide) (by decide)).2).trans (by decide)⟩

/-- C9 counterexample: a `start` with status 0 is accepted in `Fresh`
(`adapt_status_code` admits any `i16`), yet the finalizing `body` panics:
`StatusCode::from_u16(0)` fails and is unwrapped. The conversion's
failure branch is therefore reachable after an accepted `start`. -/
theorem C9_accepted_status_can_panic_counterexample :
    (senderCall (Sender.new true) (startMsg 0 [])).outcome = Outcome.ok ∧
    statusCodeFromU16 (statusAsU16 0) = none ∧
    (senderCall (senderCall (Sender.new true) (startMsg 0 [])).state
        (bodyMsg [] false)).outcome = Outcome.panic ∧
    (runSender (Sender.new true) [startMsg 0 [], bodyMsg [] false]).2 =
      [] := by
  refine ⟨rfl, by decide, rfl, rfl⟩

/-- C9 as amended: `start` accepts any `i16` status, so the status
conversion at finalization can fail (its failure branch is reachable);
the finalizing `body` completes without fault exactly under the
additional precondition that the stored status, reinterpreted as `u16`,
lies in `100..=999`. -/
theorem C9_finalize_ok_iff_status_in_range (st : SenderState) (m : Message)
    (hty : adapt_message_type m = some ASGIMessageType.Body)
    (hi : st.inited = true) (hc : st.consumed = false)
    (h1 : 100 ≤ statusAsU16 st.status) (h2 : statusAsU16 st.status ≤ 999) :
    (senderCall st m).outcome = Outcome.ok := by
  have hcond : st.inited = true ∧ ¬ st.consumed = true := ⟨hi, by simp [hc]⟩
  simp only [senderCall, hty]
  rw [if_pos hcond]
  unfold send_body
  cases hmore : (adapt_body m).2
  · by_cases htx : st.tx = true
    · simp [htx, statusCodeFromU16, h1, h2]
    · have htx' : st.tx = false := by
        cases h : st.tx
        · rfl
        · exact absurd h htx
      simp [htx']
  · simp

/-- Closed instance of the amended C9: with stored status 200, a
finalizing `body` succeeds (no panic). -/
theorem C9_finalize_ok_iff_status_in_range_witness :
    (senderCall stInit (bodyMsg [] false)).outcome = Outcome.ok :=
  C9_finalize_ok_iff_status_in_range stInit (bodyMsg [] false) rfl rfl rfl
    (by decide) (by decide)

/-- C10: contrary to the claim, header adaptation is not total over
arbitrary header lists: a pair with fewer than two elements makes the
loop's `tup[0]`/`tup[1]` indexing go out of bounds, so a `start` in
`Fresh` with headers `[[b"ok"]]` panics instead of returning a result. -/
theorem C10_short_header_pair_panics :
    adaptHeadersLoop [[[111, 107]]] [] = none ∧
    adapt_headers (startMsg 200 [[[111, 107]]]) = none ∧
    senderCall (Sender.new true) (startMsg 200 [[[111, 107]]]) =
      { outcome := .panic, state := Sender.new true, sent := none } :=
  ⟨rfl, rfl, rfl⟩

end ASGI
